import Mathlib

/-!
Verification of the Garmin sleep-data pipeline: a shallow embedding of
`src/utils/garminclient.py`, `src/sleep/downloader.py` and
`src/sleep/sleepplot.py`, together with proofs of the documented
properties of the date-relative time normalization, the bulk fetch loop,
the DTO flattener, the cleaning pipeline and the chart-axis ticks.
-/

namespace GarminData

/-!
## Time model

A Python `datetime` is embedded as a rational number of seconds since the
epoch (Python datetimes carry microsecond precision, which embeds exactly
into `ℚ`).  A calendar date is an integer day index, and
`datetime.datetime.combine(date, datetime.datetime.min.time())` — midnight
of that date — is `86400 * date` seconds.  A `timedelta` used as a
duration is embedded as an integer number of seconds.
-/

/-- Midnight of the calendar date `date`:
`datetime.datetime.combine(date, datetime.datetime.min.time())`. -/
def midnight (date : ℤ) : ℚ := 86400 * (date : ℚ)

/-- `SleepPlot.make_relative(dt, date)`: the negated total seconds between
`dt` and midnight on `date`, i.e. `-(dt - midnight).total_seconds()`. -/
def make_relative (dt : ℚ) (date : ℤ) : ℚ := -(dt - midnight date)

/-- `SleepPlot.seconds_to_time(s, date)`: midnight of `date` minus
`timedelta(seconds=s)`. -/
def seconds_to_time (s : ℚ) (date : ℤ) : ℚ := midnight date - s

/-- Zero-padded two-digit decimal rendering, as Python `%02d` / `{:02d}`
produces for the values in range here. -/
def twoDigits (n : ℕ) : String := (if n < 10 then "0" else "") ++ Nat.repr n

/-- The time of day (seconds past the last midnight) of a datetime. -/
def timeOfDay (dt : ℚ) : ℚ := dt - 86400 * (⌊dt / 86400⌋ : ℤ)

/-- The hour attribute (0–23) of a datetime. -/
def hourOf (dt : ℚ) : ℤ := ⌊timeOfDay dt / 3600⌋

/-- The minute attribute (0–59) of a datetime. -/
def minuteOf (dt : ℚ) : ℤ := ⌊(timeOfDay dt - 3600 * hourOf dt) / 60⌋

/-- `SleepPlot.datetime_to_12hr(dt)`: `dt.strftime("%I:%M %p")`, the
12-hour clock rendering of the time of day. -/
def datetime_to_12hr (dt : ℚ) : String :=
  let h : ℤ := hourOf dt
  let h12 : ℤ := if h % 12 = 0 then 12 else h % 12
  twoDigits h12.toNat ++ ":" ++ twoDigits (minuteOf dt).toNat ++
    (if h < 12 then " AM" else " PM")

/-- `SleepPlot.format_relative_seconds(seconds, date)`; `none` is a null
input (`pd.isnull`). -/
def format_relative_seconds (seconds : Option ℚ) (date : ℤ) : String :=
  match seconds with
  | none => ""
  | some s => datetime_to_12hr (seconds_to_time s date)

/-- `SleepPlot.format_timedelta(x)`: renders `x.components.hours` and
`x.components.minutes` as `hh:mm`; `none` is a null input. -/
def format_timedelta (x : Option ℤ) : String :=
  match x with
  | none => ""
  | some t => twoDigits ((t / 3600) % 24).toNat ++ ":" ++ twoDigits ((t / 60) % 60).toNat

/-- C1: round-trip law — `seconds_to_time (make_relative dt date) date = dt`,
exactly, for every datetime `dt` and date `date`. -/
theorem seconds_to_time_make_relative (dt : ℚ) (date : ℤ) :
    seconds_to_time (make_relative dt date) date = dt := by
  simp [seconds_to_time, make_relative, midnight]

/-- C6: null-safety of the formatters — both return the empty string on a
null input. -/
theorem formatters_null_safe (date : ℤ) :
    format_relative_seconds none date = "" ∧ format_timedelta none = "" :=
  ⟨rfl, rfl⟩

/-- Shifting a datetime by a whole number of days does not change its time
of day. -/
theorem timeOfDay_add_int_days (x : ℚ) (k : ℤ) :
    timeOfDay (x + 86400 * k) = timeOfDay x := by
  unfold timeOfDay
  have h : (x + 86400 * k) / 86400 = x / 86400 + (k : ℚ) := by ring
  rw [h, Int.floor_add_int]
  push_cast
  ring

/-- The 12-hour formatter depends on a datetime only through its time of
day. -/
theorem datetime_to_12hr_congr {a b : ℚ} (h : timeOfDay a = timeOfDay b) :
    datetime_to_12hr a = datetime_to_12hr b := by
  have hh : hourOf a = hourOf b := by unfold hourOf; rw [h]
  have hm : minuteOf a = minuteOf b := by unfold minuteOf; rw [h, hh]
  unfold datetime_to_12hr
  rw [hh, hm]

/-- C2: sign convention of `make_relative` — datetimes after midnight of
`date` map to negative values and datetimes before midnight to positive
values; moreover the worked example holds: with 2024-01-02 embedded as day
19724 and 07:15:00 on that day as `19724 * 86400 + 26100` seconds,
`make_relative` gives `-26100` and `format_relative_seconds` renders
`-26100` as `"07:15 AM"`. -/
theorem make_relative_sign (dt : ℚ) (date : ℤ) :
    (midnight date < dt → make_relative dt date < 0) ∧
    (dt < midnight date → 0 < make_relative dt date) ∧
    make_relative (19724 * 86400 + 26100) 19724 = -26100 ∧
    format_relative_seconds (some (-26100)) 19724 = "07:15 AM" := by
  refine ⟨fun h => by unfold make_relative; linarith,
          fun h => by unfold make_relative; linarith, ?_, ?_⟩
  · norm_num [make_relative, midnight]
  · have h1 : seconds_to_time (-26100) 19724 = 19724 * 86400 + 26100 := by
      norm_num [seconds_to_time, midnight]
    have h2 : timeOfDay (19724 * 86400 + 26100) = 26100 := by
      have hf : ⌊((19724 * 86400 + 26100 : ℚ)) / 86400⌋ = 19724 := by norm_num
      simp [timeOfDay, hf]
      norm_num
    have h3 : hourOf (19724 * 86400 + 26100) = 7 := by
      rw [hourOf, h2]; norm_num
    have h4 : minuteOf (19724 * 86400 + 26100) = 15 := by
      rw [minuteOf, h2, h3]; norm_num
    rw [format_relative_seconds, h1, datetime_to_12hr, h3, h4]
    norm_num [twoDigits]
    rfl

/-- Witness for C2, at a datetime after midnight (07:15 on day 19724) and
one before midnight (23:00 on the previous day). -/
theorem make_relative_sign_witness :
    make_relative (19724 * 86400 + 26100) 19724 < 0 ∧
    0 < make_relative (19724 * 86400 - 3600) 19724 :=
  ⟨(make_relative_sign (19724 * 86400 + 26100) 19724).1 (by norm_num [midnight]),
   (make_relative_sign (19724 * 86400 - 3600) 19724).2.1 (by norm_num [midnight])⟩

/-- C9: `format_relative_seconds` on a non-null value does not depend on
the date argument, and is periodic in the seconds argument with period
86400. -/
theorem format_relative_seconds_date_free_periodic (s : ℚ) (d d' : ℤ) :
    format_relative_seconds (some s) d = format_relative_seconds (some s) d' ∧
    format_relative_seconds (some (s + 86400)) d = format_relative_seconds (some s) d := by
  constructor
  · show datetime_to_12hr (seconds_to_time s d) = datetime_to_12hr (seconds_to_time s d')
    apply datetime_to_12hr_congr
    have h : seconds_to_time s d = seconds_to_time s d' + 86400 * ((d - d' : ℤ) : ℚ) := by
      unfold seconds_to_time midnight
      push_cast
      ring
    rw [h]
    exact timeOfDay_add_int_days _ _
  · show datetime_to_12hr (seconds_to_time (s + 86400) d) = datetime_to_12hr (seconds_to_time s d)
    apply datetime_to_12hr_congr
    have h : seconds_to_time (s + 86400) d = seconds_to_time s d + 86400 * ((-1 : ℤ) : ℚ) := by
      unfold seconds_to_time midnight
      push_cast
      ring
    rw [h]
    exact timeOfDay_add_int_days _ _

/-!
## Fetcher (`src/utils/garminclient.py`)

Calendar days are integer day indices.  The single-day fetch
`GClient.get_sleep_data` is an external HTTP call; it is abstracted as a
function `fetch` from a day to its raw payload.
-/

/-- `daterange(start_date, end_date)`: the source first does
`end_date += timedelta(days=1)` and then yields `start_date + timedelta(n)`
for `n` in `range(int((end_date - start_date).days))`. -/
def daterange (start_date end_date : ℤ) : List ℤ :=
  (List.range (end_date + 1 - start_date).toNat).map (fun n : ℕ => start_date + (n : ℤ))

/-- `GClient.get_bulk_sleep_data(start, end)`: one `get_sleep_data` call
per generated date, the responses appended in loop order. -/
def get_bulk_sleep_data {α : Type} (fetch : ℤ → α) (start e : ℤ) : List α :=
  (daterange start e).map fetch

/-- C3: for `start ≤ end` the generated dates are exactly the days of the
inclusive interval, pairwise strictly ascending (so each day is fetched
exactly once), there are `end - start + 1` of them, and the bulk fetch
returns the per-day fetch results in that order. -/
theorem get_bulk_sleep_data_spec {α : Type} (fetch : ℤ → α) (s e d : ℤ) (h : s ≤ e) :
    (d ∈ daterange s e ↔ s ≤ d ∧ d ≤ e) ∧
    (daterange s e).Pairwise (· < ·) ∧
    (daterange s e).length = (e - s + 1).toNat ∧
    get_bulk_sleep_data fetch s e = (daterange s e).map fetch := by
  refine ⟨?_, ?_, ?_, rfl⟩
  · simp only [daterange, List.mem_map, List.mem_range]
    constructor
    · rintro ⟨n, hn, rfl⟩
      omega
    · rintro ⟨h1, h2⟩
      exact ⟨(d - s).toNat, by omega, by omega⟩
  · unfold daterange
    rw [List.pairwise_map]
    refine (List.pairwise_lt_range _).imp ?_
    intro a b hab
    omega
  · simp [daterange]
    omega

/-- Witness for C3: the three-day range from day 0 to day 2. -/
theorem get_bulk_sleep_data_spec_witness :
    ((1 : ℤ) ∈ daterange 0 2 ↔ (0 : ℤ) ≤ 1 ∧ (1 : ℤ) ≤ 2) ∧
    (daterange 0 2).Pairwise (· < ·) ∧
    (daterange 0 2).length = ((2 : ℤ) - 0 + 1).toNat ∧
    get_bulk_sleep_data (fun x => x) 0 2 = (daterange 0 2).map (fun x => x) :=
  get_bulk_sleep_data_spec (fun x => x) 0 2 1 (by decide)

/-!
## Flattener (`src/sleep/downloader.py`)

A raw per-day payload is used by `dto_to_df` only through its
`dailySleepDTO` sub-mapping, embedded as an association list from field
names to `Option`-values with `none` standing for JSON `null`.  Field
access mirrors Python `dict.get`, which returns `None` both for an absent
key and for a stored null.  `dto_to_df` returns `none` where the Python
raises (`IndexError` on an empty input, `KeyError` in `dropna` when
`"id"` is not among the columns).
-/

/-- A `dailySleepDTO` mapping: field names to values, `none` = JSON null. -/
abbrev DTO (α : Type) := List (String × Option α)

/-- Python `d.get(key)`: the stored value, or null when the key is absent. -/
def dtoGet {α : Type} (d : DTO α) (k : String) : Option α :=
  match d.lookup k with
  | some v => v
  | none => none

/-- The key list of a mapping (Python `dict.keys()`, in insertion order). -/
def dtoKeys {α : Type} (d : DTO α) : List String := d.map Prod.fst

/-- A flattened data frame: named columns and row-major cells. -/
structure DF (α : Type) where
  cols : List String
  rows : List (List (Option α))
deriving DecidableEq

/-- The cell of `row` under the column named `k`, with `cols` the column
names of the frame. -/
def cellByName {α : Type} (cols : List String) (row : List (Option α)) (k : String) :
    Option (Option α) :=
  (cols.zip row).lookup k

/-- `SleepDownloader.dto_to_df(data)`: one column per key of the first
record's `dailySleepDTO`, one cell per record in input order, then
`df.dropna(subset=["id"])`. -/
def dto_to_df {α : Type} (data : List (DTO α)) : Option (DF α) :=
  match data with
  | [] => none
  | d0 :: rest =>
    if "id" ∈ dtoKeys d0 then
      some { cols := dtoKeys d0
             rows := ((d0 :: rest).map
                        (fun d => (dtoKeys d0).map (fun k => dtoGet d k))).filter
                       (fun row => ((cellByName (dtoKeys d0) row "id").getD none).isSome) }
    else none

/-- Looking a present key up in a keys-against-mapped-values zip yields the
mapped value of that key. -/
theorem lookup_zip_map {α : Type} (f : String → Option α) (k : String) :
    ∀ K : List String, k ∈ K → (K.zip (K.map f)).lookup k = some (f k) := by
  intro K
  induction K with
  | nil => intro hk; cases hk
  | cons a t ih =>
    intro hk
    by_cases h : k = a
    · subst h
      simp [List.lookup]
    · rcases List.mem_cons.mp hk with h1 | h1
      · exact absurd h1 h
      · have hb : (k == a) = false := by simp [h]
        simpa [List.lookup, List.zip, hb] using ih h1

/-- C4: on a non-empty input whose first record carries an `id` field, the
flattened frame's columns are exactly the first record's keys, and its
rows are each record's values under those keys, in input order, with
exactly the null-`id` records removed. -/
theorem dto_to_df_spec {α : Type} (d0 : DTO α) (rest : List (DTO α))
    (hid : "id" ∈ dtoKeys d0) :
    dto_to_df (d0 :: rest) =
      some { cols := dtoKeys d0
             rows := ((d0 :: rest).filter (fun d => (dtoGet d "id").isSome)).map
                       (fun d => (dtoKeys d0).map (fun k => dtoGet d k)) } := by
  simp only [dto_to_df]
  rw [if_pos hid]
  congr 1
  rw [List.filter_map]
  have hfilter :
      List.filter
          ((fun row => ((cellByName (dtoKeys d0) row "id").getD none).isSome) ∘
            fun d => List.map (fun k => dtoGet d k) (dtoKeys d0)) (d0 :: rest) =
        List.filter (fun d => (dtoGet d "id").isSome) (d0 :: rest) := by
    apply List.filter_congr
    intro d hd
    simp only [Function.comp, cellByName]
    rw [lookup_zip_map _ _ _ hid]
    rfl
  rw [hfilter]

/-- Witness for C4: two records, the second with a null `id`. -/
theorem dto_to_df_spec_witness :
    dto_to_df ([("id", some 1), ("x", none)] ::
               [[("id", none), ("x", some (2 : ℚ))]]) =
      some { cols := dtoKeys [("id", some 1), ("x", none)]
             rows := (([("id", some 1), ("x", none)] ::
                       [[("id", none), ("x", some (2 : ℚ))]]).filter
                        (fun d => (dtoGet d "id").isSome)).map
                       (fun d => (dtoKeys [("id", some (1 : ℚ)), ("x", none)]).map
                         (fun k => dtoGet d k)) } :=
  dto_to_df_spec [("id", some 1), ("x", none)] [[("id", none), ("x", some 2)]] (by decide)

/-- C10: a record after the first that lacks (or nulls) a key of the first
record's key set does not make `dto_to_df` fail; its cell under that key
is null, and its row is dropped exactly when its `id` value is
null/absent. -/
theorem dto_to_df_missing_key {α : Type} (d0 : DTO α) (rest : List (DTO α))
    (d : DTO α) (k : String)
    (hid : "id" ∈ dtoKeys d0) (hd : d ∈ d0 :: rest) (hk : k ∈ dtoKeys d0)
    (hmiss : dtoGet d k = none) :
    (dto_to_df (d0 :: rest)).isSome = true ∧
    cellByName (dtoKeys d0) ((dtoKeys d0).map (fun j => dtoGet d j)) k = some none ∧
    (d ∈ (d0 :: rest).filter (fun r => (dtoGet r "id").isSome) ↔
      (dtoGet d "id").isSome = true) := by
  refine ⟨?_, ?_, ?_⟩
  · rw [dto_to_df_spec d0 rest hid]
    rfl
  · rw [cellByName, lookup_zip_map _ _ _ hk, hmiss]
  · simp [List.mem_filter, hd]

/-- Witness for C10: the second record lacks the key `"x"` of the first. -/
theorem dto_to_df_missing_key_witness :
    (dto_to_df ([("id", some (1 : ℚ)), ("x", some 2)] :: [[("id", some 3)]])).isSome = true ∧
    cellByName (dtoKeys [("id", some (1 : ℚ)), ("x", some 2)])
        ((dtoKeys [("id", some (1 : ℚ)), ("x", some 2)]).map
          (fun j => dtoGet [("id", some (3 : ℚ))] j)) "x" = some none ∧
    ([("id", some (3 : ℚ))] ∈
        ([("id", some (1 : ℚ)), ("x", some 2)] :: [[("id", some 3)]]).filter
          (fun r => (dtoGet r "id").isSome) ↔
      (dtoGet [("id", some (3 : ℚ))] "id").isSome = true) :=
  dto_to_df_missing_key [("id", some 1), ("x", some 2)] [[("id", some 3)]]
    [("id", some 3)] "x" (by decide) (by decide) (by decide) (by decide)

/-!
## Cleaning pipeline (`SleepPlot.clean_data`)

A raw CSV row carries the fields `clean_data` reads: a nullable `id`
(`dropna(subset=["id"])` removes null-`id` rows), a `calendarDate` parsed
into a date (embedded as an integer day index), the two sleep timestamps
in local epoch milliseconds, and `sleepTimeSeconds`.
`sort_values("date")` is embedded as a comparison sort by the `date`
column (insertion sort; none of the properties below depend on the order
of date ties).  `rolling(7).mean()` follows the pandas defaults: a
trailing window of 7 samples with `min_periods` equal to the window size,
so the first 6 rows receive a missing value.
-/

/-- One raw CSV record as read by `clean_data`. -/
structure RawRow where
  id : Option ℚ
  calendarDate : ℤ
  sleepStartTimestampLocal : ℤ
  sleepEndTimestampLocal : ℤ
  sleepTimeSeconds : ℤ
deriving DecidableEq, Inhabited

/-- A row after the datetime-derivation step of `clean_data`. -/
structure Row1 extends RawRow where
  date : ℤ
  bedtime : ℚ
  wakeup : ℚ
  sleeptime : ℤ
deriving DecidableEq, Inhabited

/-- A row after the relative-seconds and formatted columns are added. -/
structure Row2 extends Row1 where
  r_bedtime : ℚ
  r_wakeup : ℚ
  f_bedtime : String
  f_wakeup : String
deriving DecidableEq, Inhabited

/-- A row of the final cleaned table, with the rolling-mean columns. -/
structure CleanRow extends Row2 where
  rm_bedtime : Option ℚ
  rm_wakeup : Option ℚ
deriving DecidableEq, Inhabited

/-- The datetime-derivation step: `date` from `calendarDate`, `bedtime`
and `wakeup` from the epoch-millisecond timestamps, `sleeptime` from
`sleepTimeSeconds`. -/
def addDatetimes (r : RawRow) : Row1 :=
  { toRawRow := r
    date := r.calendarDate
    bedtime := (r.sleepStartTimestampLocal : ℚ) / 1000
    wakeup := (r.sleepEndTimestampLocal : ℚ) / 1000
    sleeptime := r.sleepTimeSeconds }

/-- The relative-seconds columns and their formatted renderings. -/
def addRelative (r : Row1) : Row2 :=
  { toRow1 := r
    r_bedtime := make_relative r.bedtime r.date
    r_wakeup := make_relative r.wakeup r.date
    f_bedtime := format_relative_seconds (some (make_relative r.bedtime r.date)) r.date
    f_wakeup := format_relative_seconds (some (make_relative r.wakeup r.date)) r.date }

/-- The sort key of `sort_values("date")`. -/
def dateLe (a b : Row1) : Prop := a.date ≤ b.date

instance : DecidableRel dateLe := fun a b => inferInstanceAs (Decidable (a.date ≤ b.date))

instance : IsTotal Row1 dateLe := ⟨fun a b => le_total a.date b.date⟩

instance : IsTrans Row1 dateLe := ⟨fun _ _ _ h1 h2 => le_trans h1 h2⟩

/-- `Series.rolling(w).mean()` with the pandas defaults (trailing window,
`min_periods` equal to the window size). -/
def rollingMean (w : ℕ) (xs : List ℚ) : List (Option ℚ) :=
  (List.range xs.length).map (fun i =>
    if w ≤ i + 1 then some ((((xs.drop (i + 1 - w)).take w).sum) / (w : ℚ)) else none)

/-- `clean_data` up to and including the sort and the per-row derived
columns: `dropna(subset=["id"])`, datetime derivation,
`sort_values("date")`, relative-seconds and formatted columns.  This is
the state of the table at the moment the rolling means are computed. -/
def cleanDataSorted (df : List RawRow) : List Row2 :=
  (List.insertionSort dateLe ((df.filter (fun r => r.id.isSome)).map addDatetimes)).map
    addRelative

/-- `SleepPlot.clean_data`: the sorted table with the rolling-mean columns
attached positionally. -/
def cleanData (df : List RawRow) : List CleanRow :=
  ((cleanDataSorted df).zip
      ((rollingMean 7 ((cleanDataSorted df).map (fun r => r.r_bedtime))).zip
        (rollingMean 7 ((cleanDataSorted df).map (fun r => r.r_wakeup))))).map
    (fun p => { toRow2 := p.1, rm_bedtime := p.2.1, rm_wakeup := p.2.2 })

theorem rollingMean_length (w : ℕ) (xs : List ℚ) :
    (rollingMean w xs).length = xs.length := by
  simp [rollingMean]

/-- Projecting the first components out of a zip against an
at-least-as-long list recovers the first list. -/
theorem map_fst_zip_of_le {A B : Type} :
    ∀ (s : List A) (t : List B), s.length ≤ t.length → (s.zip t).map Prod.fst = s := by
  intro s
  induction s with
  | nil => intro t h; simp
  | cons a s ih =>
    intro t h
    cases t with
    | nil => simp at h
    | cons b t =>
      simp only [List.zip_cons_cons, List.map_cons]
      rw [ih t (by simpa using h)]

theorem cleanData_map_toRow2 (df : List RawRow) :
    (cleanData df).map (fun c => c.toRow2) = cleanDataSorted df := by
  unfold cleanData
  rw [List.map_map]
  show ((cleanDataSorted df).zip _).map Prod.fst = cleanDataSorted df
  apply map_fst_zip_of_le
  simp [rollingMean_length, List.length_zip]

theorem cleanData_length (df : List RawRow) :
    (cleanData df).length = (cleanDataSorted df).length := by
  have h := congrArg List.length (cleanData_map_toRow2 df)
  simpa using h

theorem cleanDataSorted_id (df : List RawRow) (r : Row2) (hr : r ∈ cleanDataSorted df) :
    r.id.isSome = true := by
  unfold cleanDataSorted at hr
  rcases List.mem_map.mp hr with ⟨r1, hr1, rfl⟩
  have hr1' : r1 ∈ (df.filter (fun x => x.id.isSome)).map addDatetimes :=
    (List.perm_insertionSort dateLe _).mem_iff.mp hr1
  rcases List.mem_map.mp hr1' with ⟨r0, hr0, rfl⟩
  exact (List.mem_filter.mp hr0).2

theorem cleanDataSorted_sorted (df : List RawRow) :
    ((cleanDataSorted df).map (fun r => r.date)).Sorted (· ≤ ·) := by
  unfold cleanDataSorted
  rw [List.map_map]
  have h := List.sorted_insertionSort dateLe
    ((df.filter (fun r => r.id.isSome)).map addDatetimes)
  exact h.map _ (fun a b hab => hab)

theorem cleanData_id (df : List RawRow) (c : CleanRow) (hc : c ∈ cleanData df) :
    c.id.isSome = true := by
  have h : c.toRow2 ∈ cleanDataSorted df := by
    rw [← cleanData_map_toRow2 df]
    exact List.mem_map_of_mem _ hc
  exact cleanDataSorted_id df c.toRow2 h

theorem cleanData_sorted (df : List RawRow) :
    ((cleanData df).map (fun c => c.date)).Sorted (· ≤ ·) := by
  have h : (cleanData df).map (fun c => c.date) =
      ((cleanData df).map (fun c => c.toRow2)).map (fun r => r.date) := by
    rw [List.map_map]
    rfl
  rw [h, cleanData_map_toRow2]
  exact cleanDataSorted_sorted df

/-- C7: every row of the cleaned table has a non-null `id` and the rows
are sorted non-decreasing by `date`; both properties already hold of the
table at the moment the rolling-mean columns are computed
(`cleanDataSorted`). -/
theorem clean_data_invariants (df : List RawRow) (r : Row2) (c : CleanRow)
    (hr : r ∈ cleanDataSorted df) (hc : c ∈ cleanData df) :
    r.id.isSome = true ∧
    ((cleanDataSorted df).map (fun x => x.date)).Sorted (· ≤ ·) ∧
    c.id.isSome = true ∧
    ((cleanData df).map (fun x => x.date)).Sorted (· ≤ ·) :=
  ⟨cleanDataSorted_id df r hr, cleanDataSorted_sorted df,
   cleanData_id df c hc, cleanData_sorted df⟩

/-- Witness for C7: three raw rows with out-of-order dates, the middle
one with a null `id`. -/
theorem clean_data_invariants_witness :
    ((cleanDataSorted [⟨some 1, 5, 0, 0, 0⟩, ⟨none, 3, 0, 0, 0⟩,
        ⟨some 2, 4, 0, 0, 0⟩]).get ⟨0, by decide⟩).id.isSome = true ∧
    ((cleanDataSorted [⟨some 1, 5, 0, 0, 0⟩, ⟨none, 3, 0, 0, 0⟩,
        ⟨some 2, 4, 0, 0, 0⟩]).map (fun x => x.date)).Sorted (· ≤ ·) ∧
    ((cleanData [⟨some 1, 5, 0, 0, 0⟩, ⟨none, 3, 0, 0, 0⟩,
        ⟨some 2, 4, 0, 0, 0⟩]).get ⟨0, by decide⟩).id.isSome = true ∧
    ((cleanData [⟨some 1, 5, 0, 0, 0⟩, ⟨none, 3, 0, 0, 0⟩,
        ⟨some 2, 4, 0, 0, 0⟩]).map (fun x => x.date)).Sorted (· ≤ ·) :=
  clean_data_invariants _ _ _ (List.get_mem _ _ _) (List.get_mem _ _ _)

theorem rollingMean_getElem (w : ℕ) (xs : List ℚ) (i : ℕ) (h : i < xs.length) :
    (rollingMean w xs)[i]? =
      some (if w ≤ i + 1 then some ((((xs.drop (i + 1 - w)).take w).sum) / (w : ℚ))
            else none) := by
  unfold rollingMean
  rw [List.getElem?_map, List.getElem?_range h]
  rfl

/-- The sum of an in-bounds window of a list is the sum of its elements
accessed positionally. -/
theorem sum_window (xs : List ℚ) :
    ∀ (n a : ℕ), a + n ≤ xs.length →
      ((xs.drop a).take n).sum = ∑ j ∈ Finset.range n, (xs[a + j]?).getD 0 := by
  intro n
  induction n with
  | zero => intro a h; simp
  | succ n ih =>
    intro a h
    have ha : a < xs.length := by omega
    rw [List.drop_eq_getElem_cons ha, List.take_succ_cons, List.sum_cons]
    rw [ih (a + 1) (by omega), Finset.sum_range_succ']
    rw [Finset.sum_congr rfl
      (fun j hj => by rw [show a + 1 + j = a + (j + 1) from by omega])]
    rw [show a + 0 = a from rfl, List.getElem?_eq_getElem ha]
    simp only [Option.getD_some]
    ring

theorem cleanData_getElem (df : List RawRow) (i : ℕ)
    (h : i < (cleanDataSorted df).length) :
    (cleanData df)[i]? = some
      { toRow2 := ((cleanDataSorted df)[i]?).getD default
        rm_bedtime :=
          ((rollingMean 7 ((cleanDataSorted df).map (fun r => r.r_bedtime)))[i]?).getD none
        rm_wakeup :=
          ((rollingMean 7 ((cleanDataSorted df).map (fun r => r.r_wakeup)))[i]?).getD none } := by
  have hb : i < (rollingMean 7 ((cleanDataSorted df).map (fun r => r.r_bedtime))).length := by
    simpa [rollingMean_length] using h
  have hw : i < (rollingMean 7 ((cleanDataSorted df).map (fun r => r.r_wakeup))).length := by
    simpa [rollingMean_length] using h
  unfold cleanData
  rw [List.getElem?_map]
  have hz : ((cleanDataSorted df).zip
      ((rollingMean 7 ((cleanDataSorted df).map (fun r => r.r_bedtime))).zip
        (rollingMean 7 ((cleanDataSorted df).map (fun r => r.r_wakeup)))))[i]? =
      some (((cleanDataSorted df)[i]?).getD default,
        ((rollingMean 7 ((cleanDataSorted df).map (fun r => r.r_bedtime)))[i]?).getD none,
        ((rollingMean 7 ((cleanDataSorted df).map (fun r => r.r_wakeup)))[i]?).getD none) := by
    rw [List.getElem?_zip_eq_some]
    refine ⟨?_, ?_⟩
    · rw [List.getElem?_eq_getElem h]
      rfl
    · rw [List.getElem?_zip_eq_some]
      refine ⟨?_, ?_⟩
      · rw [List.getElem?_eq_getElem hb]
        rfl
      · rw [List.getElem?_eq_getElem hw]
        rfl
  rw [hz]
  rfl

/-- C5: in the cleaned table, each rolling-mean cell at a row index `i ≥ 6`
is the arithmetic mean of the corresponding relative-seconds column over
rows `i-6` through `i`, and at a row index `i < 6` it is missing. -/
theorem rolling_mean_window (df : List RawRow) (i : ℕ)
    (hlen : i < (cleanData df).length) :
    (6 ≤ i →
      ((cleanData df)[i]?).map (fun c => c.rm_bedtime) =
        some (some ((∑ j ∈ Finset.range 7,
          (((cleanData df)[i - 6 + j]?).getD default).r_bedtime) / 7)) ∧
      ((cleanData df)[i]?).map (fun c => c.rm_wakeup) =
        some (some ((∑ j ∈ Finset.range 7,
          (((cleanData df)[i - 6 + j]?).getD default).r_wakeup) / 7))) ∧
    (i < 6 →
      ((cleanData df)[i]?).map (fun c => c.rm_bedtime) = some none ∧
      ((cleanData df)[i]?).map (fun c => c.rm_wakeup) = some none) := by
  have hs : i < (cleanDataSorted df).length := by
    rwa [cleanData_length] at hlen
  have hcol : ∀ f : Row2 → ℚ, ((cleanDataSorted df).map f).length = (cleanDataSorted df).length :=
    fun f => by simp
  constructor
  · intro h6
    have hwin : ∀ f : Row2 → ℚ,
        ((rollingMean 7 ((cleanDataSorted df).map f))[i]?).getD none =
          some ((∑ j ∈ Finset.range 7,
            f ((((cleanData df)[i - 6 + j]?).getD default).toRow2)) / 7) := by
      intro f
      rw [rollingMean_getElem 7 _ i (by rw [hcol]; exact hs)]
      rw [if_pos (by omega : 7 ≤ i + 1)]
      simp only [Option.getD_some]
      congr 1
      rw [show i + 1 - 7 = i - 6 from by omega]
      rw [sum_window _ 7 (i - 6) (by rw [hcol]; omega)]
      rw [show ((7 : ℕ) : ℚ) = 7 from by norm_num]
      congr 1
      apply Finset.sum_congr rfl
      intro j hj
      have hjk : i - 6 + j < (cleanDataSorted df).length := by
        have := Finset.mem_range.mp hj
        omega
      rw [List.getElem?_map, cleanData_getElem df _ hjk, List.getElem?_eq_getElem hjk]
      rfl
    rw [cleanData_getElem df i hs]
    exact ⟨congrArg some (hwin (fun r => r.r_bedtime)),
           congrArg some (hwin (fun r => r.r_wakeup))⟩
  · intro h6
    rw [cleanData_getElem df i hs]
    constructor
    · refine congrArg some ?_
      rw [rollingMean_getElem 7 ((cleanDataSorted df).map (fun r => r.r_bedtime)) i
        (by rw [hcol]; exact hs)]
      rw [if_neg (by omega : ¬ 7 ≤ i + 1)]
      rfl
    · refine congrArg some ?_
      rw [rollingMean_getElem 7 ((cleanDataSorted df).map (fun r => r.r_wakeup)) i
        (by rw [hcol]; exact hs)]
      rw [if_neg (by omega : ¬ 7 ≤ i + 1)]
      rfl

/-- A seven-day input table used to witness the rolling-mean property. -/
def dfW7 : List RawRow :=
  [⟨some 0, 0, 0, 0, 0⟩, ⟨some 0, 1, 0, 0, 0⟩, ⟨some 0, 2, 0, 0, 0⟩,
   ⟨some 0, 3, 0, 0, 0⟩, ⟨some 0, 4, 0, 0, 0⟩, ⟨some 0, 5, 0, 0, 0⟩,
   ⟨some 0, 6, 0, 0, 0⟩]

/-- Witness for C5, at rows 6 and 0 of a seven-day table. -/
theorem rolling_mean_window_witness :
    (((cleanData dfW7)[6]?).map (fun c => c.rm_bedtime) =
        some (some ((∑ j ∈ Finset.range 7,
          (((cleanData dfW7)[6 - 6 + j]?).getD default).r_bedtime) / 7)) ∧
      ((cleanData dfW7)[6]?).map (fun c => c.rm_wakeup) =
        some (some ((∑ j ∈ Finset.range 7,
          (((cleanData dfW7)[6 - 6 + j]?).getD default).r_wakeup) / 7))) ∧
    (((cleanData dfW7)[0]?).map (fun c => c.rm_bedtime) = some none ∧
      ((cleanData dfW7)[0]?).map (fun c => c.rm_wakeup) = some none) :=
  ⟨(rolling_mean_window dfW7 6 (by decide)).1 (by omega),
   (rolling_mean_window dfW7 0 (by decide)).2 (by omega)⟩

/-!
## Chart layout (`SleepPlot.update_layout`)

Only the tick specification carries logic: `time_range` is the Python
`range(86400, -86400, -3600)` (half-open: the stop value is excluded),
`delta_range` is `[pd.Timedelta(hours=n) for n in range(16)]` embedded as
whole seconds, and the tick texts apply the two formatters —
`format_relative_seconds` (with two trailing spaces appended) for row 1,
`format_timedelta` for row 2.
-/

/-- Python `range(start, stop, step)` for a nonzero step: the arithmetic
progression from `start` of maximal length that stays strictly on the
`start` side of `stop`. -/
def pythonRange (start stop step : ℤ) : List ℤ :=
  if 0 < step then
    (List.range ((stop - start + step - 1) / step).toNat).map
      (fun i : ℕ => start + step * (i : ℤ))
  else if step < 0 then
    (List.range ((start - stop + (-step) - 1) / (-step)).toNat).map
      (fun i : ℕ => start + step * (i : ℤ))
  else []

/-- `time_range = list(range(86400, -86400, -3600))`. -/
def time_range : List ℤ := pythonRange 86400 (-86400) (-3600)

/-- `delta_range = [pd.Timedelta(hours=n) for n in range(16)]`, with each
timedelta embedded as its whole number of seconds. -/
def delta_range : List ℤ := (List.range 16).map (fun n : ℕ => 3600 * (n : ℤ))

/-- The tick configuration produced by `update_layout` (`today` is the
day index of `datetime.datetime.today()`). -/
structure Layout where
  yTickvals : List ℤ
  yTicktext : List String
  y2Tickvals : List ℤ
  y2Ticktext : List String
deriving DecidableEq

/-- `SleepPlot.update_layout`: row 1 ticks at `time_range` labelled with
`format_relative_seconds(time, today) + "  "`, row 2 ticks at
`delta_range` labelled with `format_timedelta`. -/
def update_layout (today : ℤ) : Layout :=
  { yTickvals := time_range
    yTicktext := time_range.map
      (fun t => format_relative_seconds (some (t : ℚ)) today ++ "  ")
    y2Tickvals := delta_range
    y2Ticktext := delta_range.map (fun t => format_timedelta (some t)) }

/-- Counterexample to C8: the claim says the row-1 axis is tick-labelled
down to `-86400` inclusive, but the Python `range` excludes its stop
value, so `-86400` is not among the tick values. -/
theorem update_layout_no_lowest_tick :
    ¬ ((-86400 : ℤ) ∈ (update_layout 0).yTickvals) := by
  decide

/-- C8 (amended): the row-1 y-axis tick values are exactly the hourly
values from `+86400` down to `-82800` (the stop `-86400` is excluded by
the half-open range), each labelled by the relative-time formatter with
two trailing spaces appended; the row-2 y-axis tick values are exactly
the whole hours 0 through 15, labelled by the duration formatter. -/
theorem update_layout_ticks (today : ℤ) (v : ℤ) :
    (v ∈ (update_layout today).yTickvals ↔
      -82800 ≤ v ∧ v ≤ 86400 ∧ v % 3600 = 0) ∧
    (update_layout today).yTicktext = (update_layout today).yTickvals.map
      (fun t => format_relative_seconds (some (t : ℚ)) today ++ "  ") ∧
    (v ∈ (update_layout today).y2Tickvals ↔
      ∃ n : ℕ, n ≤ 15 ∧ v = 3600 * (n : ℤ)) ∧
    (update_layout today).y2Ticktext = (update_layout today).y2Tickvals.map
      (fun t => format_timedelta (some t)) := by
  refine ⟨?_, rfl, ?_, rfl⟩
  · have he : time_range = (List.range 48).map (fun k : ℕ => 86400 - 3600 * (k : ℤ)) := by
      decide
    show v ∈ time_range ↔ _
    rw [he]
    simp only [List.mem_map, List.mem_range]
    constructor
    · rintro ⟨k, hk, rfl⟩
      omega
    · rintro ⟨h1, h2, h3⟩
      exact ⟨((86400 - v) / 3600).toNat, by omega, by omega⟩
  · show v ∈ delta_range ↔ _
    simp only [delta_range, List.mem_map, List.mem_range]
    constructor
    · rintro ⟨n, hn, rfl⟩
      exact ⟨n, by omega, rfl⟩
    · rintro ⟨n, hn, rfl⟩
      exact ⟨n, by omega, rfl⟩

end GarminData
